import Mathlib

set_option maxRecDepth 100000

/-!
# Verification of the audioTranscriber core (src/index.js)

A shallow embedding of the `AudioTranscriber` class from `src/index.js`:
backend discovery (`checkWhisperAvailability`), the remote probe
(`checkWebAPIAvailability`), the subtitle parser
(`convertSrtToTimestampedText` and the inline plain-text extraction inside
`transcribe`), the placeholder generator (`generateMockTranscription`),
temporary-file cleanup (`cleanupFiles`) and the orchestrator (`transcribe`).

External effects (filesystem probes, child-process invocations, network I/O,
the random index, wall-clock timestamps) are passed in explicitly as a
`World` value; each definition otherwise follows the JavaScript source
line by line.

The JS string primitives used by the source (`split`, `includes`, `trim`,
the `/^\d+$/` test, `path.basename`, `path.extname`) are modelled by
structurally recursive functions on `List Char`, so that every definition
evaluates inside the kernel.
-/

namespace AudioTranscriber

/-- JS `s.split(sep)` for a one-character separator. -/
def splitOnChar (sep : Char) (s : List Char) : List (List Char) :=
  s.foldr (fun c acc =>
    if c == sep then [] :: acc
    else (c :: acc.headD []) :: acc.tailD []) [[]]

/-- JS `s.includes(pat)`: some position of `s` starts with `pat`. -/
def containsSeq (pat : List Char) : List Char → Bool
  | [] => pat.isEmpty
  | c :: rest => pat.isPrefixOf (c :: rest) || containsSeq pat rest

/-- JS `s.split(pat)[0]` for a non-empty `pat`: the characters before the
first occurrence of `pat` (all of `s` when `pat` does not occur). -/
def beforeFirst (pat : List Char) : List Char → List Char
  | [] => []
  | c :: rest => if pat.isPrefixOf (c :: rest) then [] else c :: beforeFirst pat rest

/-- JS `s.trim()` (the source only ever trims ASCII whitespace). -/
def trimList (s : List Char) : List Char :=
  ((s.dropWhile Char.isWhitespace).reverse.dropWhile Char.isWhitespace).reverse

/-- JS regex test `/^\d+$/.test(s)`: non-empty and all decimal digits. -/
def isDigitsOnly (s : List Char) : Bool :=
  !s.isEmpty && s.all (·.isDigit)

/-- Models node `path.basename(p)` for ordinary POSIX paths (no trailing
slash): the part after the last `/`. -/
def basename (p : String) : String :=
  ((splitOnChar '/' p.toList).getLastD []).asString

/-- Models node `path.basename(p, suffix)`: the basename with `suffix`
stripped when it is a proper suffix of the basename. -/
def basenameStrip (p suffix : String) : String :=
  let b := basename p
  if b != suffix && suffix.toList.isSuffixOf b.toList then
    (b.toList.take (b.toList.length - suffix.toList.length)).asString
  else b

/-- Models node `path.extname(p)` for ordinary file names: from the last `.`
of the basename to the end; empty when the basename has no dot or its only
dot is the leading character. -/
def extname (p : String) : String :=
  let parts := splitOnChar '.' (basename p).toList
  if parts.length == 1 then ""
  else if parts.length == 2 && (parts.headD []).isEmpty then ""
  else ('.' :: parts.getLastD []).asString

/-- JS `s.toLowerCase()` (ASCII). -/
def lowerStr (s : String) : String :=
  (s.toList.map Char.toLower).asString

/-! ## Subtitle parser (src/index.js lines 116-152)

`convertSrtToTimestampedText` walks the lines keeping the accumulated output
(`timestampedText`, first component) and the text of the current block
(`currentText`, second component). -/

/-- The time-range separator token `" --> "`. -/
def arrowToken : List Char := (" --> ").toList

/-- One iteration of the `for` loop of `convertSrtToTimestampedText`. -/
def srtStep (st : List Char × List Char) (rawLine : List Char) :
    List Char × List Char :=
  let line := trimList rawLine
  if line.isEmpty || isDigitsOnly line then
    st
  else if containsSeq arrowToken line then
    let timestampedText :=
      if !st.2.isEmpty then st.1 ++ st.2 ++ ('\n' :: '\n' :: []) else st.1
    let startTime := beforeFirst arrowToken line
    (timestampedText ++ ('[' :: (startTime ++ (']' :: ' ' :: []))), [])
  else
    (st.1, st.2 ++ line ++ [' '])

/-- Models `convertSrtToTimestampedText(srtContent)` from src/index.js: split on
newlines, run the loop, then append the trimmed leftover text. -/
def convertSrtToTimestampedText (srtContent : String) : String :=
  let lines := splitOnChar '\n' srtContent.toList
  let st := lines.foldl srtStep ([], [])
  (if !st.2.isEmpty then st.1 ++ trimList st.2 else st.1).asString

/-- The plain-text extraction inlined in `transcribe` (src/index.js lines
360-366): keep lines that are non-blank, not a bare index and not a
time-range line; join with single spaces and trim. -/
def extractPlainText (srtContent : String) : String :=
  let lines := splitOnChar '\n' srtContent.toList
  let textLines := lines.filter fun line =>
    !(trimList line).isEmpty && !isDigitsOnly (trimList line) &&
      !containsSeq arrowToken line
  (trimList (List.intercalate [' '] textLines)).asString

/-! ## Placeholder generator (src/index.js lines 161-171) -/

/-- The four fixed filler paragraphs of `generateMockTranscription`. -/
def mockTexts : List String :=
  ["Hello, this is a mock transcription of the audio file. Since Whisper is not available, this is a placeholder text that simulates what a real transcription would look like.",
   "Welcome to this audio recording. This is a demonstration of the transcription service. The actual audio content would be converted to text here if Whisper was properly installed and configured.",
   "This is a sample transcription that shows how the output would appear. The text would contain the actual spoken words from your audio file, with proper punctuation and formatting.",
   "In a real transcription, you would see the actual words spoken in the audio file. This mock text is just for demonstration purposes when Whisper is not available on the system."]

/-- Two-decimal rendering of `size/1024`, standing in for the JS float
expression `(size / 1024).toFixed(2)` (rounded to the nearest hundredth; no
claim inspects this string beyond it being a function of `size`). -/
def toFixed2KB (size : Nat) : String :=
  let centi := (size * 100 + 512) / 1024
  let frac := centi % 100
  toString (centi / 100) ++ "." ++ (if frac < 10 then "0" else "") ++ toString frac

/-- Models `generateMockTranscription(filename, size, mimetype)`; the random pick
`Math.floor(Math.random() * mockTexts.length)` enters as the index `idx`. -/
def generateMockTranscription (idx : Fin 4) (filename : String) (size : Nat)
    (mimetype : String) : String :=
  let randomText := mockTexts.getD idx ""
  "[MOCK TRANSCRIPTION] " ++ randomText ++ "\n\nFile: " ++ filename ++
    "\nSize: " ++ toFixed2KB size ++ " KB\nType: " ++ mimetype

/-! ## Backend discovery (src/index.js lines 28-65) -/

/-- Result shape of `checkWhisperAvailability`:
`{available, path, error?}`. -/
structure AvailResult where
  available : Bool
  path : Option String
  error : Option String
  deriving DecidableEq, Repr

/-- The fixed ordered list of well-known installation paths (src/index.js
lines 39-45); `home` is `process.env.HOME`, and node `path.join` is plain
`/`-concatenation for these segments. -/
def commonPaths (home : String) : List String :=
  ["/Users/kasperjones/venvs/whisper310-py10/bin/whisper",
   home ++ "/venvs/whisper310-py10/bin/whisper",
   home ++ "/.virtualenvs/whisper/bin/whisper",
   home ++ "/anaconda3/envs/whisper/bin/whisper",
   home ++ "/miniconda3/envs/whisper/bin/whisper"]

/-- The `for`-loop over `commonPaths`: first entry that exists on disk. -/
def findFirstExisting (existsSync : String → Bool) : List String → Option String
  | [] => none
  | p :: rest => if existsSync p then some p else findFirstExisting existsSync rest

/-- Models `checkWhisperAvailability()`; `whisperPath` is the caller-supplied
override (`null` modelled as `none`), `existsSync` the filesystem probe,
`whisperHelp` the outcome of running the bare command with a help flag. -/
def checkWhisperAvailability (whisperPath : Option String)
    (existsSync : String → Bool) (home : String)
    (whisperHelp : Except String Unit) : AvailResult :=
  if (whisperPath.map existsSync).getD false then
    { available := true, path := whisperPath, error := none }
  else
    match findFirstExisting existsSync (commonPaths home) with
    | some venvPath => { available := true, path := some venvPath, error := none }
    | none =>
      match whisperHelp with
      | Except.ok _ => { available := true, path := some "whisper", error := none }
      | Except.error msg => { available := false, path := none, error := some msg }

/-! ## Remote probe (src/index.js lines 71-109) -/

/-- Outcome of the HEAD request issued by `checkWebAPIAvailability`: the
endpoint answered (any status code), the request errored, or the 5s timer
fired. -/
inductive NetOutcome
  | response (statusCode : Nat)
  | netError (msg : String)
  | timeout
  deriving DecidableEq, Repr

/-- Result shape of `checkWebAPIAvailability`: `{available, error?}`. -/
structure WebAvail where
  available : Bool
  error : Option String
  deriving DecidableEq, Repr

/-- The timeout set on the probe request (src/index.js line 87), in ms. -/
def probeTimeoutMs : Nat := 5000

/-- Result of `checkWebAPIAvailability` together with whether a network request was
issued at all. -/
structure ProbeOutcome where
  result : WebAvail
  requestMade : Bool
  deriving DecidableEq, Repr

/-- Models `checkWebAPIAvailability()`; `webAPIKey = ""` models the JS-falsy key
(`null` or empty). With a key, the request is issued and any response at
all maps to available. -/
def checkWebAPIAvailability (webAPIKey : String) (net : NetOutcome) :
    ProbeOutcome :=
  if webAPIKey == "" then
    ⟨{ available := false, error := some "No API key provided" }, false⟩
  else
    match net with
    | NetOutcome.response _ => ⟨{ available := true, error := none }, true⟩
    | NetOutcome.netError msg => ⟨{ available := false, error := some msg }, true⟩
    | NetOutcome.timeout => ⟨{ available := false, error := some "Connection timeout" }, true⟩

/-! ## Cleanup (src/index.js lines 268-280) -/

/-- Effect summary of one `cleanupFiles(files)` call: which of `files` got
removed, which removals threw (logged as a warning), and which of `files`
are still on disk afterwards. -/
structure CleanupOutcome where
  deleted : List String
  warned : List String
  remaining : List String
  deriving DecidableEq, Repr

/-- Models `cleanupFiles(files)`: a no-op when `cleanupTempFiles` is false;
otherwise each existing file is removed, a throwing removal only warns. -/
def cleanupFiles (cleanupTempFiles : Bool) (existsAt removeFails : String → Bool)
    (files : List String) : CleanupOutcome :=
  if !cleanupTempFiles then
    { deleted := [], warned := [], remaining := files.filter existsAt }
  else
    { deleted := files.filter fun f => existsAt f && !removeFails f,
      warned := files.filter fun f => existsAt f && removeFails f,
      remaining := files.filter fun f => existsAt f && removeFails f }

/-! ## Orchestrator (src/index.js lines 288-425) -/

/-- Constructor state of `AudioTranscriber` (src/index.js lines 9-22). -/
structure Config where
  tmpDir : String
  whisperModel : String
  whisperPath : Option String
  cleanupTempFiles : Bool
  useWebAPI : Bool
  /-- Empty string models a JS-falsy key (`null` or empty string). -/
  webAPIKey : String
  webAPIEndpoint : String

/-- Constructor options, `none` for an absent field. -/
structure CtorOptions where
  tmpDir : Option String := none
  whisperModel : Option String := none
  whisperPath : Option String := none
  cleanupTempFiles : Option Bool := none
  useWebAPI : Option Bool := none
  webAPIKey : Option String := none
  webAPIEndpoint : Option String := none

/-- Models `new AudioTranscriber(options)` (src/index.js lines 9-22); `cwd` is
`process.cwd()`. `cleanupTempFiles` defaults to true
(`options.cleanupTempFiles !== false`). -/
def mkConfig (cwd : String) (o : CtorOptions) : Config :=
  { tmpDir := o.tmpDir.getD (cwd ++ "/tmp"),
    whisperModel := o.whisperModel.getD "medium",
    whisperPath := o.whisperPath,
    cleanupTempFiles := o.cleanupTempFiles.getD true,
    useWebAPI := o.useWebAPI.getD false,
    webAPIKey := o.webAPIKey.getD "",
    webAPIEndpoint := o.webAPIEndpoint.getD "https://api.openai.com/v1/audio/transcriptions" }

/-- The external world one `transcribe` call observes: filesystem probes,
child-process outcomes, network outcomes, the random mock index and clock
readings. -/
structure World where
  /-- Observation of `fs.existsSync` at validation and discovery time. -/
  existsSync : String → Bool
  /-- Observation of `fs.statSync(inputFilePath).size`. -/
  fileSize : Nat
  /-- Value of `process.env.HOME`. -/
  home : String
  /-- Outcome of running the bare whisper command with a help flag. -/
  whisperHelp : Except String Unit
  /-- Outcome of `execAsync(ffmpegCmd)`. -/
  ffmpegRun : Except String Unit
  /-- Outcome of `execAsync(whisperCmd)`. -/
  whisperRun : Except String Unit
  /-- Observation of `fs.existsSync(srtFile)` after the whisper run. -/
  srtExists : Bool
  /-- Content read by `fs.readFileSync(srtFile)`. -/
  srtContent : String
  /-- Outcome of the probe HEAD request. -/
  net : NetOutcome
  /-- Outcome of `transcribeWithWebAPI`: text, or the thrown message. -/
  webClient : Except String String
  /-- Value of `Math.floor(Math.random() * 4)` inside the mock generator. -/
  mockIdx : Fin 4
  /-- Value of `Date.now()` naming the converted file. -/
  nowStamp : Nat
  /-- Value of `Date.now() - startTime` recorded in the result. -/
  elapsedMs : Nat
  /-- Observation of `fs.existsSync` during `cleanupFiles`. -/
  existsAtCleanup : String → Bool
  /-- Whether `fs.remove` throws for a given path. -/
  removeFails : String → Bool

/-- Options of one `transcribe` call; `outputFormat = ""` models a JS-falsy
value (absent or empty), defaulted to `"txt"` in the result. -/
structure TranscribeOptions where
  includeTimestamps : Bool := false
  outputFormat : String := ""

/-- The `file_info` record of a result (src/index.js lines 408-419). -/
structure FileInfo where
  filename : String
  size : Nat
  content_type : String
  size_kb : String
  processing_time_ms : Nat
  include_timestamps : Bool
  output_format : String
  model : String
  /-- One of `"whisper"`, `"web-api"` or `"mock"` (the spec abstract local-executable /
  remote-api / placeholder). -/
  method : String
  whisper_path : Option String
  deriving DecidableEq, Repr

/-- The return contract of `transcribe` (src/index.js lines 406-420). -/
structure TranscriptionResult where
  text : String
  file_info : FileInfo
  deriving DecidableEq, Repr

/-- The static extension-to-MIME table (src/index.js lines 303-312). -/
def mimeTypes : List (String × String) :=
  [(".mp3", "audio/mpeg"), (".wav", "audio/wav"), (".m4a", "audio/mp4"),
   (".webm", "audio/webm"), (".mp4", "video/mp4"), (".ogg", "audio/ogg"),
   (".flac", "audio/flac"), (".aac", "audio/aac")]

/-- Models the lookup `mimeTypes[fileExt]` defaulted to `audio/unknown`. -/
def contentTypeFor (ext : String) : String :=
  (mimeTypes.lookup ext).getD "audio/unknown"

/-- Bookkeeping of one `transcribe` call before the `finally` cleanup:
the outcome (result or thrown message), the temp files registered for
cleanup (`tempFiles`), the temporary artifacts that came into existence,
and which stages ran. -/
structure CoreOut where
  outcome : Except String TranscriptionResult
  registered : List String := []
  created : List String := []
  discoveryRan : Bool := false
  probeRan : Bool := false
  clientRan : Bool := false
  cleanupRan : Bool := false

/-- The `try` block of the local-whisper stage (src/index.js lines 348-375):
run the executable, locate the subtitle output next to the audio basename,
parse it per the timestamp preference; the `catch` wraps every failure in
`Whisper transcription failed: `. Returns the text or the thrown message,
with the registered/created artifact lists extended by the subtitle file
when it exists. -/
def runWhisperStage (cfg : Config) (w : World) (opts : TranscribeOptions)
    (audioFile : String) (tempFiles0 : List String) :
    Except String String × List String :=
  match w.whisperRun with
  | Except.error msg =>
    (Except.error ("Whisper transcription failed: " ++ msg), tempFiles0)
  | Except.ok _ =>
    let srtFile := cfg.tmpDir ++ "/" ++ basenameStrip audioFile ".wav" ++ ".srt"
    if w.srtExists then
      let text :=
        if opts.includeTimestamps then convertSrtToTimestampedText w.srtContent
        else extractPlainText w.srtContent
      (Except.ok text, tempFiles0 ++ [srtFile])
    else
      (Except.error ("Whisper transcription failed: Whisper did not generate SRT output"),
       tempFiles0)

/-- Models `transcribe(inputFilePath, options)` up to (but not including) the
`finally` cleanup of the local path — see `transcribe` below for the
cleanup. Follows src/index.js lines 288-425 branch by branch; the outer
`catch` (line 422) wraps every thrown message in `Transcription failed: `. -/
def transcribeCore (cfg : Config) (w : World) (inputFilePath : String)
    (opts : TranscribeOptions) : CoreOut :=
  if !(w.existsSync inputFilePath) then
    { outcome := Except.error ("Transcription failed: " ++
        ("Input file not found: " ++ inputFilePath)) }
  else
    let fileSize := w.fileSize
    let fileName := basename inputFilePath
    let fileExt := lowerStr (extname inputFilePath)
    let contentType := contentTypeFor fileExt
    let whisperCheck :=
      checkWhisperAvailability cfg.whisperPath w.existsSync w.home w.whisperHelp
    let mkResult : String → String → Option String → TranscriptionResult :=
      fun text method wp =>
        { text := text,
          file_info :=
          { filename := fileName, size := fileSize, content_type := contentType,
            size_kb := toFixed2KB fileSize, processing_time_ms := w.elapsedMs,
            include_timestamps := opts.includeTimestamps,
            output_format := if opts.outputFormat == "" then "txt" else opts.outputFormat,
            model := cfg.whisperModel, method := method, whisper_path := wp } }
    if whisperCheck.available then
      -- local executable path: convert unless already .wav, then run whisper
      if fileExt != ".wav" then
        let wavFile := cfg.tmpDir ++ "/" ++ toString w.nowStamp ++ "_converted.wav"
        match w.ffmpegRun with
        | Except.error msg =>
          -- thrown before the try/finally: no cleanup, nothing registered
          { outcome := Except.error ("Transcription failed: " ++
              ("FFmpeg conversion failed: " ++ msg)),
            discoveryRan := true }
        | Except.ok _ =>
          let run := runWhisperStage cfg w opts wavFile [wavFile]
          { outcome :=
              match run.1 with
              | Except.ok text => Except.ok (mkResult text "whisper" whisperCheck.path)
              | Except.error msg => Except.error ("Transcription failed: " ++ msg),
            registered := run.2, created := run.2,
            discoveryRan := true, cleanupRan := true }
      else
        let run := runWhisperStage cfg w opts inputFilePath []
        { outcome :=
            match run.1 with
            | Except.ok text => Except.ok (mkResult text "whisper" whisperCheck.path)
            | Except.error msg => Except.error ("Transcription failed: " ++ msg),
          registered := run.2, created := run.2,
          discoveryRan := true, cleanupRan := true }
    else if cfg.useWebAPI && cfg.webAPIKey != "" then
      let probe := checkWebAPIAvailability cfg.webAPIKey w.net
      if probe.result.available then
        -- method is set to "web-api" before the client call (line 386)
        match w.webClient with
        | Except.ok text =>
          { outcome := Except.ok (mkResult text "web-api" none),
            discoveryRan := true, probeRan := true, clientRan := true }
        | Except.error _ =>
          -- warn and fall back to the mock text; `method` stays "web-api"
          { outcome := Except.ok (mkResult
              (generateMockTranscription w.mockIdx fileName fileSize contentType)
              "web-api" none),
            discoveryRan := true, probeRan := true, clientRan := true }
      else
        { outcome := Except.ok (mkResult
            (generateMockTranscription w.mockIdx fileName fileSize contentType)
            "mock" none),
          discoveryRan := true, probeRan := true }
    else
      { outcome := Except.ok (mkResult
          (generateMockTranscription w.mockIdx fileName fileSize contentType)
          "mock" none),
        discoveryRan := true }

/-- Trace of one `transcribe` call: the artifacts registered and created,
the cleanup effect, and which stages ran. -/
structure Trace where
  registered : List String
  created : List String
  discoveryRan : Bool
  probeRan : Bool
  clientRan : Bool
  cleanupRan : Bool
  deleted : List String
  warned : List String
  remaining : List String

/-- Models `transcribe(inputFilePath, options)`: the core of src/index.js lines
288-425 followed by the `finally` cleanup (line 378) of the registered temp
files. Branches that never reach the `finally` register nothing, so applying
`cleanupFiles` to the (empty) registered list there is a no-op and the
shape below is exactly the behavior of the source on every path. -/
def transcribe (cfg : Config) (w : World) (inputFilePath : String)
    (opts : TranscribeOptions) : Except String TranscriptionResult × Trace :=
  let core := transcribeCore cfg w inputFilePath opts
  let cl := cleanupFiles cfg.cleanupTempFiles w.existsAtCleanup w.removeFails core.registered
  (core.outcome,
   { registered := core.registered, created := core.created,
     discoveryRan := core.discoveryRan, probeRan := core.probeRan,
     clientRan := core.clientRan, cleanupRan := core.cleanupRan,
     deleted := cl.deleted, warned := cl.warned, remaining := cl.remaining })

/-- The `method` recorded by a completed call (`none` when the call threw). -/
def resultMethod (x : Except String TranscriptionResult × Trace) : Option String :=
  x.1.toOption.map fun r => r.file_info.method

/-- The `text` returned by a completed call (`none` when the call threw). -/
def resultText (x : Except String TranscriptionResult × Trace) : Option String :=
  x.1.toOption.map fun r => r.text

/-- The `whisper_path` recorded by a completed call. -/
def resultWhisperPath (x : Except String TranscriptionResult × Trace) :
    Option (Option String) :=
  x.1.toOption.map fun r => r.file_info.whisper_path

/-! ## Concrete inputs used by the claims -/

/-- The canonical 3-block subtitle input (the one in the test suite): blocks
at 00:00:00,000 - 00:00:03,500 / 00:00:03,500 - 00:00:07,200 /
00:00:07,200 - 00:00:10,000, one text line each. -/
def canonicalSrt : String :=
  "1\n00:00:00,000 --> 00:00:03,500\nHello, this is a test transcription.\n\n2\n00:00:03,500 --> 00:00:07,200\nIt contains multiple segments with timestamps.\n\n3\n00:00:07,200 --> 00:00:10,000\nThis is the final segment."

/-- A subtitle input whose first time-range line is followed immediately by
another time-range line: the first block is empty. -/
def emptyBlockSrt : String :=
  "00:00:00,000 --> 00:00:01,000\n00:00:01,000 --> 00:00:02,000\nhello"

/-- A subtitle input whose range line holds malformed timestamps around the
separator token. -/
def malformedRangeSrt : String :=
  "abc --> def\nhi"

/-! ## Helper lemmas -/

/-- The loop over the well-known paths returns the first existing entry. -/
theorem findFirstExisting_append (existsSync : String → Bool) (l₁ : List String)
    (q : String) (l₂ : List String) (h₁ : ∀ x ∈ l₁, existsSync x = false)
    (hq : existsSync q = true) :
    findFirstExisting existsSync (l₁ ++ q :: l₂) = some q := by
  induction l₁ with
  | nil => simp [findFirstExisting, hq]
  | cons a as ih =>
    have ha : existsSync a = false := h₁ a (List.mem_cons_self a as)
    have ih2 := ih fun x hx => h₁ x (List.mem_cons_of_mem a hx)
    simpa [findFirstExisting, ha] using ih2

/-- The loop over the well-known paths finds nothing when no entry exists. -/
theorem findFirstExisting_none (existsSync : String → Bool) (l : List String)
    (h : ∀ x ∈ l, existsSync x = false) :
    findFirstExisting existsSync l = none := by
  induction l with
  | nil => rfl
  | cons a as ih =>
    have ha : existsSync a = false := h a (List.mem_cons_self a as)
    have ih2 := ih fun x hx => h x (List.mem_cons_of_mem a hx)
    simpa [findFirstExisting, ha] using ih2

/-- A discovery result either reports available with a locator or reports
unavailable with no locator. -/
theorem checkWhisperAvailability_shape (wp : Option String)
    (existsSync : String → Bool) (home : String) (help : Except String Unit) :
    ((checkWhisperAvailability wp existsSync home help).available = true ∧
      (checkWhisperAvailability wp existsSync home help).path ≠ none) ∨
    ((checkWhisperAvailability wp existsSync home help).available = false ∧
      (checkWhisperAvailability wp existsSync home help).path = none) := by
  unfold checkWhisperAvailability
  split
  · rename_i hc
    cases wp with
    | none => simp at hc
    | some p => exact Or.inl ⟨rfl, by simp⟩
  · split
    · exact Or.inl ⟨rfl, by simp⟩
    · split
      · exact Or.inl ⟨rfl, by simp⟩
      · exact Or.inr ⟨rfl, rfl⟩

/-! ## The claims -/

/-- C2: on the canonical 3-block subtitle input, timestamped parsing yields
exactly the three `[start] text` blocks separated by blank lines in the
original order (each flushed block keeps the space-join trailing space), and
plain parsing yields the three text lines joined with single spaces,
trimmed, with no timestamp markers. -/
theorem C2_canonical_roundtrip :
    convertSrtToTimestampedText canonicalSrt =
      "[00:00:00,000] Hello, this is a test transcription. \n\n[00:00:03,500] It contains multiple segments with timestamps. \n\n[00:00:07,200] This is the final segment." ∧
    extractPlainText canonicalSrt =
      "Hello, this is a test transcription. It contains multiple segments with timestamps. This is the final segment." := by
  exact ⟨by decide, by decide⟩

/-- C9 counterexample: a time-range line with no following text contributes
its marker with NO blank-line separator before the next block (the separator
is only emitted when non-empty accumulated text is flushed), so the claimed
blocks-separated-by-blank-lines shape fails on `emptyBlockSrt`. -/
theorem C9_counterexample :
    convertSrtToTimestampedText emptyBlockSrt =
      "[00:00:00,000] [00:00:01,000] hello" ∧
    convertSrtToTimestampedText emptyBlockSrt ≠
      "[00:00:00,000] \n\n[00:00:01,000] hello" := by
  exact ⟨by decide, by decide⟩

/-- C9 amended: an empty block contributes a bare timestamp marker that runs
into the next marker with no blank-line separator in timestamped mode and
contributes nothing in plain mode; a line containing the range separator
token is treated as a range line even with malformed timestamps. -/
theorem C9_empty_block_and_malformed :
    convertSrtToTimestampedText emptyBlockSrt =
      "[00:00:00,000] [00:00:01,000] hello" ∧
    extractPlainText emptyBlockSrt = "hello" ∧
    convertSrtToTimestampedText malformedRangeSrt = "[abc] hi" ∧
    extractPlainText malformedRangeSrt = "hi" := by
  exact ⟨by decide, by decide, by decide, by decide⟩

/-- C7: backend discovery follows strict priority order, first match wins:
an existing caller-supplied path is returned immediately whatever the rest
of the environment looks like; otherwise the first existing well-known path;
otherwise a successful bare-command invocation yields the bare name
`whisper`; otherwise the captured error message is reported, and nothing is
retried (the result is a pure function of the single observation of each
probe). -/
theorem C7_discovery_priority (existsSync : String → Bool) (home : String)
    (help : Except String Unit) :
    (∀ p, existsSync p = true →
      checkWhisperAvailability (some p) existsSync home help =
        { available := true, path := some p, error := none }) ∧
    (∀ wp l₁ q l₂, (wp.map existsSync).getD false = false →
      commonPaths home = l₁ ++ q :: l₂ →
      (∀ x ∈ l₁, existsSync x = false) → existsSync q = true →
      checkWhisperAvailability wp existsSync home help =
        { available := true, path := some q, error := none }) ∧
    (∀ wp, (wp.map existsSync).getD false = false →
      (∀ x ∈ commonPaths home, existsSync x = false) →
      help = Except.ok () →
      checkWhisperAvailability wp existsSync home help =
        { available := true, path := some "whisper", error := none }) ∧
    (∀ wp msg, (wp.map existsSync).getD false = false →
      (∀ x ∈ commonPaths home, existsSync x = false) →
      help = Except.error msg →
      checkWhisperAvailability wp existsSync home help =
        { available := false, path := none, error := some msg }) := by
  refine ⟨fun p hp => ?_, fun wp l₁ q l₂ hwp hsplit h₁ hq => ?_,
    fun wp hwp hnone hok => ?_, fun wp msg hwp hnone herr => ?_⟩
  · simp [checkWhisperAvailability, hp]
  · have := findFirstExisting_append existsSync l₁ q l₂ h₁ hq
    rw [← hsplit] at this
    simp [checkWhisperAvailability, hwp, this]
  · simp [checkWhisperAvailability, hwp,
      findFirstExisting_none existsSync _ hnone, hok]
  · simp [checkWhisperAvailability, hwp,
      findFirstExisting_none existsSync _ hnone, herr]

/-- C7 witness: a configured custom path that exists wins even though a
well-known path also exists and the bare command would fail. -/
theorem C7_discovery_priority_witness :
    checkWhisperAvailability (some "/opt/custom/whisper")
      (fun _ => true) "/home/u" (Except.error "spawn failure") =
      { available := true, path := some "/opt/custom/whisper", error := none } :=
  (C7_discovery_priority (fun _ => true) "/home/u"
    (Except.error "spawn failure")).1 "/opt/custom/whisper" rfl

/-- C8: with no credential the probe reports unavailable with the
missing-credential reason and makes no network request; with a credential,
any response at all maps to available, a network error maps to unavailable
with the underlying message, and the 5000 ms bounded timeout maps to
unavailable with the timeout message. -/
theorem C8_probe_behavior (key : String) (net : NetOutcome) :
    (∀ n, checkWebAPIAvailability "" n =
      ⟨{ available := false, error := some "No API key provided" }, false⟩) ∧
    (key ≠ "" →
      (∀ s, net = NetOutcome.response s →
        checkWebAPIAvailability key net =
          ⟨{ available := true, error := none }, true⟩) ∧
      (∀ m, net = NetOutcome.netError m →
        checkWebAPIAvailability key net =
          ⟨{ available := false, error := some m }, true⟩) ∧
      (net = NetOutcome.timeout →
        checkWebAPIAvailability key net =
          ⟨{ available := false, error := some "Connection timeout" }, true⟩)) ∧
    probeTimeoutMs = 5000 := by
  refine ⟨fun n => by simp [checkWebAPIAvailability],
    fun hk => ⟨fun s hs => ?_, fun m hm => ?_, fun ht => ?_⟩, rfl⟩ <;>
    simp_all [checkWebAPIAvailability]

/-- C8 witness: a configured key with a 404 response still counts as
available, and a missing key short-circuits without a request. -/
theorem C8_probe_behavior_witness :
    checkWebAPIAvailability "sk-test" (NetOutcome.response 404) =
      ⟨{ available := true, error := none }, true⟩ ∧
    checkWebAPIAvailability "" (NetOutcome.response 200) =
      ⟨{ available := false, error := some "No API key provided" }, false⟩ :=
  ⟨((C8_probe_behavior "sk-test" (NetOutcome.response 404)).2.1
      (by decide)).1 404 rfl,
   (C8_probe_behavior "" (NetOutcome.response 200)).1 (NetOutcome.response 200)⟩

/-! ## Concrete environments for the orchestrator-level claims -/

/-- A baseline constructor state: no override path, cleanup on, remote off. -/
def demoCfg : Config :=
  { tmpDir := "/tmp/t", whisperModel := "medium", whisperPath := none,
    cleanupTempFiles := true, useWebAPI := false, webAPIKey := "",
    webAPIEndpoint := "https://api.openai.com/v1/audio/transcriptions" }

/-- A baseline world: only the input file exists, the bare whisper command
fails, the external processes would succeed, the endpoint answers, the
remote client call fails. -/
def demoWorld : World :=
  { existsSync := fun s => s == "/audio/in.mp3", fileSize := 2048,
    home := "/home/u", whisperHelp := Except.error "whisper: not found",
    ffmpegRun := Except.ok (), whisperRun := Except.ok (), srtExists := true,
    srtContent := "", net := NetOutcome.response 200,
    webClient := Except.error "socket hang up", mockIdx := 1, nowStamp := 99,
    elapsedMs := 5, existsAtCleanup := fun _ => true,
    removeFails := fun _ => false }

/-- Remote mode on with a key, over `demoCfg`. -/
def c1cfg : Config :=
  { demoCfg with useWebAPI := true, webAPIKey := "sk-1" }

/-- A caller-supplied executable override, over `demoCfg`. -/
def c3cfg : Config :=
  { demoCfg with whisperPath := some "/opt/w" }

/-- The override executable exists as well and the whisper run fails. -/
def c3world : World :=
  { demoWorld with
    existsSync := fun s => s == "/audio/in.mp3" || s == "/opt/w",
    whisperRun := Except.error "exit 1" }

/-- The override executable exists and the whisper run succeeds on a `.wav`
input. -/
def c4world : World :=
  { demoWorld with
    existsSync := fun s => s == "/audio/in.wav" || s == "/opt/w" }

/-- A world where no path exists at all. -/
def c6world : World :=
  { demoWorld with existsSync := fun _ => false }

/-! ## Orchestrator claims -/

/-- C6: a non-existent input path fails with the file-not-found error before
any backend is probed and before any temporary artifact is created. -/
theorem C6_missing_input (cfg : Config) (w : World) (p : String)
    (opts : TranscribeOptions) (h : w.existsSync p = false) :
    (transcribe cfg w p opts).1 = Except.error
      ("Transcription failed: " ++ ("Input file not found: " ++ p)) ∧
    (transcribe cfg w p opts).2.discoveryRan = false ∧
    (transcribe cfg w p opts).2.probeRan = false ∧
    (transcribe cfg w p opts).2.created = [] ∧
    (transcribe cfg w p opts).2.registered = [] := by
  simp [transcribe, transcribeCore, cleanupFiles, h]

/-- C6 witness: the concrete missing-input run. -/
theorem C6_missing_input_witness :
    (transcribe demoCfg c6world "/audio/in.mp3" {}).1 = Except.error
      ("Transcription failed: " ++ ("Input file not found: " ++ "/audio/in.mp3")) ∧
    (transcribe demoCfg c6world "/audio/in.mp3" {}).2.discoveryRan = false ∧
    (transcribe demoCfg c6world "/audio/in.mp3" {}).2.probeRan = false ∧
    (transcribe demoCfg c6world "/audio/in.mp3" {}).2.created = [] ∧
    (transcribe demoCfg c6world "/audio/in.mp3" {}).2.registered = [] :=
  C6_missing_input demoCfg c6world "/audio/in.mp3" {} rfl

/-- C5: when discovery reports unavailable and remote mode is disabled or
uncredentialed, the call completes with the placeholder text (code string
`mock`) as produced by the placeholder generator. -/
theorem C5_placeholder_fallback (cfg : Config) (w : World) (p : String)
    (opts : TranscribeOptions) (hex : w.existsSync p = true)
    (hun : (checkWhisperAvailability cfg.whisperPath w.existsSync w.home
      w.whisperHelp).available = false)
    (hweb : cfg.useWebAPI = false ∨ cfg.webAPIKey = "") :
    resultMethod (transcribe cfg w p opts) = some "mock" ∧
    resultText (transcribe cfg w p opts) =
      some (generateMockTranscription w.mockIdx (basename p) w.fileSize
        (contentTypeFor (lowerStr (extname p)))) := by
  rcases hweb with h | h <;>
    simp [transcribe, transcribeCore, resultMethod, resultText, Except.toOption,
      hex, hun, h]

/-- C5 witness: the concrete uncredentialed fallback run. -/
theorem C5_placeholder_fallback_witness :
    resultMethod (transcribe demoCfg demoWorld "/audio/in.mp3" {}) = some "mock" ∧
    resultText (transcribe demoCfg demoWorld "/audio/in.mp3" {}) =
      some (generateMockTranscription demoWorld.mockIdx (basename "/audio/in.mp3")
        demoWorld.fileSize (contentTypeFor (lowerStr (extname "/audio/in.mp3")))) :=
  C5_placeholder_fallback demoCfg demoWorld "/audio/in.mp3" {} (by decide)
    (by decide) (Or.inl rfl)

/-- C1 counterexample: with the probe succeeding and the remote client
failing, the call completes with the placeholder text but records the remote
method `web-api`, not the placeholder method `mock` — refuting the claim
that such a result records the placeholder method. -/
theorem C1_counterexample :
    resultMethod (transcribe c1cfg demoWorld "/audio/in.mp3" {}) = some "web-api" ∧
    resultMethod (transcribe c1cfg demoWorld "/audio/in.mp3" {}) ≠ some "mock" ∧
    resultText (transcribe c1cfg demoWorld "/audio/in.mp3" {}) =
      some (generateMockTranscription 1 "in.mp3" 2048 "audio/mpeg") := by
  exact ⟨by decide, by decide, by decide⟩

/-- C1 amended: if the remote client invocation fails, `transcribe` still
completes successfully with text from the placeholder generator (never the
failed terminal state), but the result records the remote method `web-api`
(set before the client call), not the placeholder method. -/
theorem C1_remote_client_failure (cfg : Config) (w : World) (p : String)
    (opts : TranscribeOptions) (hex : w.existsSync p = true)
    (hun : (checkWhisperAvailability cfg.whisperPath w.existsSync w.home
      w.whisperHelp).available = false)
    (hweb : cfg.useWebAPI = true) (hkey : cfg.webAPIKey ≠ "")
    (hprobe : (checkWebAPIAvailability cfg.webAPIKey w.net).result.available = true)
    (msg : String) (hcl : w.webClient = Except.error msg) :
    resultMethod (transcribe cfg w p opts) = some "web-api" ∧
    resultText (transcribe cfg w p opts) =
      some (generateMockTranscription w.mockIdx (basename p) w.fileSize
        (contentTypeFor (lowerStr (extname p)))) := by
  have hkey2 : (cfg.webAPIKey != "") = true := bne_iff_ne.mpr hkey
  simp [transcribe, transcribeCore, resultMethod, resultText, Except.toOption,
    hex, hun, hweb, hkey2, hprobe, hcl]

/-- C1 witness: the concrete probe-ok client-fail run. -/
theorem C1_remote_client_failure_witness :
    resultMethod (transcribe c1cfg demoWorld "/audio/in.mp3" {}) = some "web-api" ∧
    resultText (transcribe c1cfg demoWorld "/audio/in.mp3" {}) =
      some (generateMockTranscription demoWorld.mockIdx (basename "/audio/in.mp3")
        demoWorld.fileSize (contentTypeFor (lowerStr (extname "/audio/in.mp3")))) :=
  C1_remote_client_failure c1cfg demoWorld "/audio/in.mp3" {} (by decide)
    (by decide) rfl (by decide) (by decide) "socket hang up" rfl

/-- C3: when the local executable is discovered as available and conversion
is not the failing stage, a failing executable invocation makes the call
fail with the wrapped backend error, and a missing subtitle output file
makes it fail with the distinct no-output error; neither case reaches the
remote probe or the client. -/
theorem C3_local_failure_fatal (cfg : Config) (w : World) (p : String)
    (opts : TranscribeOptions) (hex : w.existsSync p = true)
    (hav : (checkWhisperAvailability cfg.whisperPath w.existsSync w.home
      w.whisperHelp).available = true)
    (hconv : lowerStr (extname p) ≠ ".wav" → w.ffmpegRun = Except.ok ()) :
    (∀ msg, w.whisperRun = Except.error msg →
      (transcribe cfg w p opts).1 = Except.error
        ("Transcription failed: " ++ ("Whisper transcription failed: " ++ msg)) ∧
      (transcribe cfg w p opts).2.probeRan = false ∧
      (transcribe cfg w p opts).2.clientRan = false) ∧
    (w.whisperRun = Except.ok () → w.srtExists = false →
      (transcribe cfg w p opts).1 = Except.error ("Transcription failed: " ++
        "Whisper transcription failed: Whisper did not generate SRT output") ∧
      (transcribe cfg w p opts).2.probeRan = false ∧
      (transcribe cfg w p opts).2.clientRan = false) := by
  by_cases hw : lowerStr (extname p) = ".wav"
  · constructor
    · intro msg hrun
      simp [transcribe, transcribeCore, runWhisperStage, hex, hav, hw, hrun]
    · intro hrun hsrt
      simp [transcribe, transcribeCore, runWhisperStage, hex, hav, hw, hrun, hsrt]
  · have hff := hconv hw
    have hw2 : (lowerStr (extname p) != ".wav") = true := bne_iff_ne.mpr hw
    constructor
    · intro msg hrun
      simp [transcribe, transcribeCore, runWhisperStage, hex, hav, hw2, hff, hrun]
    · intro hrun hsrt
      simp [transcribe, transcribeCore, runWhisperStage, hex, hav, hw2, hff,
        hrun, hsrt]

/-- C3 witness: the concrete failing local invocation. -/
theorem C3_local_failure_fatal_witness :
    (transcribe c3cfg c3world "/audio/in.mp3" {}).1 = Except.error
      ("Transcription failed: " ++ ("Whisper transcription failed: " ++ "exit 1")) ∧
    (transcribe c3cfg c3world "/audio/in.mp3" {}).2.probeRan = false ∧
    (transcribe c3cfg c3world "/audio/in.mp3" {}).2.clientRan = false :=
  (C3_local_failure_fatal c3cfg c3world "/audio/in.mp3" {} (by decide) (by decide)
    (fun _ => rfl)).1 "exit 1" rfl

/-- C4: with cleanup enabled every registered artifact whose removal does
not fail is gone at the end of the call on every terminal path, a failing
removal only lands in the warning list, the returned outcome does not depend
on removal failures, and with cleanup disabled nothing is deleted. -/
theorem C4_cleanup_invariant (cfg : Config) (w : World) (p : String)
    (opts : TranscribeOptions) :
    (cfg.cleanupTempFiles = true →
      ∀ f ∈ (transcribe cfg w p opts).2.registered, w.removeFails f = false →
        f ∉ (transcribe cfg w p opts).2.remaining) ∧
    (cfg.cleanupTempFiles = true →
      ∀ f ∈ (transcribe cfg w p opts).2.registered, w.removeFails f = true →
        w.existsAtCleanup f = true → f ∈ (transcribe cfg w p opts).2.warned) ∧
    (cfg.cleanupTempFiles = false → (transcribe cfg w p opts).2.deleted = []) ∧
    (∀ g, (transcribe cfg { w with removeFails := g } p opts).1 =
      (transcribe cfg w p opts).1) := by
  refine ⟨fun hc f hf hrf => ?_, fun hc f hf hrf hex => ?_, fun hc => ?_,
    fun g => rfl⟩
  · simp only [transcribe, cleanupFiles, hc] at hf ⊢
    simp only [Bool.not_true, Bool.false_eq_true, if_false]
    simp [List.mem_filter, hrf]
  · simp only [transcribe, cleanupFiles, hc] at hf ⊢
    simp only [Bool.not_true, Bool.false_eq_true, if_false]
    simp only [List.mem_filter] at hf ⊢
    exact ⟨hf, by simp [hex, hrf]⟩
  · simp [transcribe, cleanupFiles, hc]

/-- C4 witness: in the concrete successful local run the registered subtitle
artifact is gone at the end of the call. -/
theorem C4_cleanup_invariant_witness :
    "/tmp/t/in.srt" ∉ (transcribe c3cfg c4world "/audio/in.wav" {}).2.remaining :=
  (C4_cleanup_invariant c3cfg c4world "/audio/in.wav" {}).1 rfl "/tmp/t/in.srt"
    (by decide) rfl

/-- Every completed call either used the local executable, recording method
`whisper` together with the discovery locator, or recorded method `web-api`
or `mock` with a null `whisper_path`. -/
theorem transcribe_ok_cases (cfg : Config) (w : World) (p : String)
    (opts : TranscribeOptions) (r : TranscriptionResult)
    (h : (transcribe cfg w p opts).1 = Except.ok r) :
    (r.file_info.method = "whisper" ∧
      r.file_info.whisper_path =
        (checkWhisperAvailability cfg.whisperPath w.existsSync w.home
          w.whisperHelp).path ∧
      (checkWhisperAvailability cfg.whisperPath w.existsSync w.home
        w.whisperHelp).available = true) ∨
    ((r.file_info.method = "web-api" ∨ r.file_info.method = "mock") ∧
      r.file_info.whisper_path = none) := by
  simp only [transcribe, transcribeCore] at h
  split at h
  · simp at h
  · split at h
    · rename_i hav
      split at h
      · split at h
        · simp at h
        · split at h
          · left
            replace h := Except.ok.inj h
            subst h
            exact ⟨rfl, rfl, hav⟩
          · simp at h
      · split at h
        · left
          replace h := Except.ok.inj h
          subst h
          exact ⟨rfl, rfl, hav⟩
        · simp at h
    · split at h
      · split at h
        · split at h
          · right
            replace h := Except.ok.inj h
            subst h
            exact ⟨Or.inl rfl, rfl⟩
          · right
            replace h := Except.ok.inj h
            subst h
            exact ⟨Or.inl rfl, rfl⟩
        · right
          replace h := Except.ok.inj h
          subst h
          exact ⟨Or.inr rfl, rfl⟩
      · right
        replace h := Except.ok.inj h
        subst h
        exact ⟨Or.inr rfl, rfl⟩

/-- C10: in every completed call the recorded `whisper_path` is non-null
exactly when the recorded method is the local executable, and in that case
it equals the locator that backend discovery returned. -/
theorem C10_method_whisper_path (cfg : Config) (w : World) (p : String)
    (opts : TranscribeOptions) :
    (∀ wp, resultWhisperPath (transcribe cfg w p opts) = some wp →
      (resultMethod (transcribe cfg w p opts) = some "whisper" ↔ wp ≠ none)) ∧
    (resultMethod (transcribe cfg w p opts) = some "whisper" →
      resultWhisperPath (transcribe cfg w p opts) =
        some (checkWhisperAvailability cfg.whisperPath w.existsSync w.home
          w.whisperHelp).path) := by
  constructor
  · intro wp hwp
    cases hok : (transcribe cfg w p opts).1 with
    | error e => simp [resultWhisperPath, hok, Except.toOption] at hwp
    | ok r =>
      rcases transcribe_ok_cases cfg w p opts r hok with ⟨hm, hp, hav⟩ | ⟨hm, hp⟩
      · have hpne : (checkWhisperAvailability cfg.whisperPath w.existsSync w.home
            w.whisperHelp).path ≠ none := by
          rcases checkWhisperAvailability_shape cfg.whisperPath w.existsSync
            w.home w.whisperHelp with ⟨_, h2⟩ | ⟨h1, _⟩
          · exact h2
          · rw [h1] at hav
            exact absurd hav (by simp)
        have hwp2 : wp = (checkWhisperAvailability cfg.whisperPath w.existsSync
            w.home w.whisperHelp).path := by
          have h3 := hwp
          simp [resultWhisperPath, hok, Except.toOption, hp] at h3
          exact h3.symm
        subst hwp2
        simp [resultMethod, hok, Except.toOption, hm, hpne]
      · have hwp2 : wp = none := by
          have h3 := hwp
          simp [resultWhisperPath, hok, Except.toOption, hp] at h3
          exact h3.symm
        subst hwp2
        rcases hm with hm | hm <;>
          simp [resultMethod, hok, Except.toOption, hm]
  · intro hm
    cases hok : (transcribe cfg w p opts).1 with
    | error e => simp [resultMethod, hok, Except.toOption] at hm
    | ok r =>
      rcases transcribe_ok_cases cfg w p opts r hok with ⟨_, hp, _⟩ | ⟨hm2, hp⟩
      · simp [resultWhisperPath, hok, Except.toOption, hp]
      · have hm3 : r.file_info.method = "whisper" := by
          simpa [resultMethod, hok, Except.toOption] using hm
        rcases hm2 with hm2 | hm2 <;> rw [hm2] at hm3 <;> simp at hm3

/-- C10 witness: the concrete successful local run records method `whisper`
and the discovered locator. -/
theorem C10_method_whisper_path_witness :
    resultMethod (transcribe c3cfg c4world "/audio/in.wav" {}) = some "whisper" ↔
      (some "/opt/w" : Option String) ≠ none :=
  (C10_method_whisper_path c3cfg c4world "/audio/in.wav" {}).1 (some "/opt/w")
    (by decide)

end AudioTranscriber
